import Mathlib

/-!
Shallow embedding of the speech-fluency backend (`src/app.py`), a Flask
application with three endpoints: `/analyze` (speech-to-feedback pipeline),
`/chat` and `/translate`.  Strings are Lean `String`s, Python floats are
modelled as exact rationals (`ℚ`), and the external capabilities
(speech recognition, GPT feedback, readability scoring, language detection,
database commit, translation) are parameters of the endpoint functions, each
with an explicit success/error outcome.  File-system state is modelled by a
flag recording whether the temporary decoded WAV file exists, plus the list
of persisted database rows.
-/

namespace SpeechApp

/-- ASCII lowering of a single character, as Python `str.lower` acts on
ASCII input: `A`..`Z` (codes 65–90) shift by 32, everything else is kept. -/
def pyLowerChar (c : Char) : Char :=
  if 65 ≤ c.toNat ∧ c.toNat ≤ 90 then Char.ofNat (c.toNat + 32) else c

/-- Python `transcript.lower()` on ASCII text: character-wise lowering. -/
def pyLower (s : String) : String :=
  String.mk (s.data.map pyLowerChar)

/-- Predicate `matchAt needle hay` is true when `needle` occurs at the very start of
`hay` (helper for the Python substring test). -/
def matchAt : List Char → List Char → Bool
  | [], _ => true
  | _ :: _, [] => false
  | a :: as, b :: bs => a == b && matchAt as bs

/-- Predicate `containsSub needle hay`: `needle` occurs as a contiguous substring of
`hay`, at any position — the semantics of Python `needle in hay`. -/
def containsSub (needle : List Char) : List Char → Bool
  | [] => matchAt needle []
  | c :: rest => matchAt needle (c :: rest) || containsSub needle rest

/-- Python's `w in s` substring operator on strings. -/
def pyInStr (needle hay : String) : Bool :=
  containsSub needle.data hay.data

/-- Helper for `pySplit`: scans the characters, accumulating the current
token (in reverse) and emitting it at each whitespace run or at the end. -/
def tokensAux : List Char → List Char → List (List Char)
  | [], acc => if acc = [] then [] else [acc.reverse]
  | c :: cs, acc =>
    if c.isWhitespace then
      if acc = [] then tokensAux cs [] else acc.reverse :: tokensAux cs []
    else tokensAux cs (c :: acc)

/-- Python `str.split()` with no argument: split on runs of whitespace and
drop empty pieces. -/
def pySplit (s : String) : List String :=
  (tokensAux s.data []).map String.mk

/-- Python `len(transcript.split())` from line 84 of `app.py`. -/
def word_count (t : String) : Nat :=
  (pySplit t).length

/-- The fixed filler vocabulary `FILLERS` from line 25 of `app.py`. -/
def FILLERS : List String :=
  ["um", "uh", "like", "you know", "so", "actually", "basically"]

/-- The comprehension `[w for w in FILLERS if w in transcript.lower()]` from line 89 of
`app.py`: fillers detected by case-insensitive substring containment. -/
def detectedFillers (t : String) : List String :=
  FILLERS.filter (fun w => pyInStr w (pyLower t))

/-- Value of a list of decimal digit characters, most significant first. -/
def digitsVal (l : List Char) : Nat :=
  l.foldl (fun n c => 10 * n + (c.toNat - 48)) 0

/-- Python `float(s)` on decimal numerals, as an exact rational: an optional
sign, then digits with an optional single decimal point (at least one digit
overall).  Non-numeric input yields `none` (Python raises `ValueError`).
Scientific notation, `inf`/`nan` and surrounding whitespace, which the
pipeline never relies on, are not modelled. -/
def pyFloat (s : String) : Option ℚ :=
  let (sign, rest) : ℚ × List Char :=
    match s.data with
    | '-' :: r => (-1, r)
    | '+' :: r => (1, r)
    | r => (1, r)
  match rest.splitOn '.' with
  | [ip] =>
    if ip ≠ [] ∧ ip.all Char.isDigit then some (sign * digitsVal ip) else none
  | [ip, fp] =>
    if (ip ≠ [] ∨ fp ≠ []) ∧ ip.all Char.isDigit ∧ fp.all Char.isDigit then
      some (sign * ((digitsVal ip : ℚ) + (digitsVal fp : ℚ) / (10 : ℚ) ^ fp.length))
    else none
  | _ => none

/-- Round a rational to the nearest integer, ties to the even integer —
the rounding of Python's builtin `round`. -/
def roundHalfEven (q : ℚ) : ℤ :=
  let f : ℤ := q.floor
  let r : ℚ := q - (f : ℚ)
  if r < 1 / 2 then f
  else if 1 / 2 < r then f + 1
  else if f % 2 = 0 then f else f + 1

/-- Python `round(x, 2)` on the exact-rational model of floats. -/
def pyRound2 (q : ℚ) : ℚ :=
  (roundHalfEven (q * 100) : ℚ) / 100

/-- Characters of `",".join(pieces)`: the pieces separated by single commas
(Python join semantics, the empty list giving the empty string). -/
def joinCommaChars : List (List Char) → List Char
  | [] => []
  | [x] => x
  | x :: y :: ys => x ++ ',' :: joinCommaChars (y :: ys)

/-- Characters of Python `s.split(",")`: split at every comma, keeping empty
pieces; the empty string yields the single empty piece. -/
def splitCommaChars : List Char → List (List Char)
  | [] => [[]]
  | c :: cs =>
    if c = ',' then [] :: splitCommaChars cs
    else
      match splitCommaChars cs with
      | [] => [[c]]
      | p :: ps => (c :: p) :: ps

/-- Python `",".join(detected_fillers)` from line 99 of `app.py`. -/
def pyJoinComma (l : List String) : String :=
  String.mk (joinCommaChars (l.map String.data))

/-- Python `s.split(",")`, the reading of the persisted fillers column. -/
def pySplitComma (s : String) : List String :=
  (splitCommaChars s.data).map String.mk

example : detectedFillers "Sofia" = ["so"] := by decide
example : detectedFillers "So," = ["so"] := by decide
example : detectedFillers "so then um" = ["um", "so"] := by decide
example : pySplit "this is a test" = ["this", "is", "a", "test"] := by decide
example : pyFloat "10" = some 10 := by with_unfolding_all decide
example : pyFloat "0" = some 0 := by with_unfolding_all decide
example : pyFloat "abc" = none := by with_unfolding_all decide
example : pyFloat "2.5" = some (5 / 2) := by with_unfolding_all decide
example : pyRound2 24 = 24 := by with_unfolding_all decide
example : pySplitComma "" = [""] := by decide
example : pyJoinComma [] = "" := by decide
example : pySplitComma (pyJoinComma ["um", "so"]) = ["um", "so"] := by decide

/-- The `SpeechResult` database row persisted by `/analyze` (lines 28–37 of
`app.py`); `fillers` is the comma-joined string column.  The generated `id`
and `created_at` columns are not modelled. -/
structure SpeechResult where
  transcript : String
  grammar_feedback : String
  fluency_score : ℚ
  word_count : Nat
  wpm : ℚ
  fillers : String
  language : String
deriving DecidableEq, Repr

/-- The JSON body returned by a successful `/analyze` (lines 105–113). -/
structure AnalyzePayload where
  transcript : String
  language : String
  word_count : Nat
  wpm : ℚ
  fluency_score : ℚ
  fillers : List String
  grammar_feedback : String
deriving DecidableEq, Repr

/-- The HTTP outcome of `/analyze`: a 200 JSON payload, an explicit
`jsonify({"error": ...}), status` return, or an uncaught Python exception
(which Flask turns into a 500 with no structured body). -/
inductive AnalyzeResponse where
  | success (payload : AnalyzePayload)
  | clientError (status : Nat) (error : String)
  | serverError (exc : String)
deriving DecidableEq, Repr

/-- Observable storage state after a request: whether the temporary decoded
`temp.wav` artifact exists, and the rows committed to the database. -/
structure AnalyzeState where
  tempExists : Bool
  rows : List SpeechResult
deriving DecidableEq, Repr

/-- Outcome of `recognizer.recognize_google` (line 76): a transcript, the
caught `sr.UnknownValueError`, or any other exception (e.g.
`sr.RequestError`), which line 75's `try` does not catch. -/
inductive RecOutcome where
  | ok (transcript : String)
  | unknownValue
  | requestError (msg : String)
deriving DecidableEq, Repr

/-- The external capabilities `/analyze` consults, each fixed for the one
request being modelled: speech recognition, `get_gpt_feedback` (an OpenAI
call that may raise), `textstat.flesch_reading_ease` (pure numeric score),
`langdetect.detect` (may raise), and the database commit (may raise). -/
structure AnalyzeEnv where
  recognize : RecOutcome
  gptFeedback : Except String String
  readability : ℚ
  language : Except String String
  dbCommit : Except String Unit

/-- An `/analyze` request: whether the multipart field `audio` is present,
and the raw string value of the `duration` form field, when sent. -/
structure AnalyzeRequest where
  hasAudio : Bool
  duration : Option String
deriving DecidableEq, Repr

/-- Expression `float(request.form.get("duration", 1))` from line 85: a missing field
silently becomes the number 1 (one second); a present field is parsed, with
`none` standing for the `ValueError` that `float` raises on bad input. -/
def parsedDuration (req : AnalyzeRequest) : Option ℚ :=
  match req.duration with
  | none => some 1
  | some s => pyFloat s

/-- The `/analyze` endpoint (lines 59–113 of `app.py`), with the external
capabilities passed in as `env`.  Mirrors the source's order: audio check,
decode and export to `temp.wav`, recognition (whose failure returns before
the `os.remove` on line 81), `os.remove`, word count, duration parse, WPM
(dividing by zero raises `ZeroDivisionError`), readability, GPT feedback,
filler detection, language detection, DB insert+commit, JSON response. -/
def analyze (req : AnalyzeRequest) (env : AnalyzeEnv) : AnalyzeResponse × AnalyzeState :=
  if req.hasAudio = false then
    (.clientError 400 "No audio uploaded", ⟨false, []⟩)
  else
    match env.recognize with
    | .unknownValue => (.clientError 400 "Speech not recognized", ⟨true, []⟩)
    | .requestError m => (.serverError m, ⟨true, []⟩)
    | .ok transcript =>
      let wc := word_count transcript
      match parsedDuration req with
      | none => (.serverError "ValueError: could not convert string to float", ⟨false, []⟩)
      | some d =>
        if d / 60 = 0 then
          (.serverError "ZeroDivisionError: float division by zero", ⟨false, []⟩)
        else
          let wpm := pyRound2 ((wc : ℚ) / (d / 60))
          let score := env.readability
          match env.gptFeedback with
          | .error m => (.serverError m, ⟨false, []⟩)
          | .ok gf =>
            let fillers := detectedFillers transcript
            match env.language with
            | .error m => (.serverError m, ⟨false, []⟩)
            | .ok lang =>
              let row : SpeechResult :=
                ⟨transcript, gf, score, wc, wpm, pyJoinComma fillers, lang⟩
              match env.dbCommit with
              | .error m => (.serverError m, ⟨false, []⟩)
              | .ok _ =>
                (.success ⟨transcript, lang, wc, wpm, score, fillers, gf⟩,
                 ⟨false, [row]⟩)

/-- A `/translate` request body: the optional `text` and `to` JSON fields
(`data.get("text", "")`, `data.get("to", "en")`, lines 129–130). -/
structure TranslateRequest where
  text : Option String
  toLang : Option String
deriving DecidableEq, Repr

/-- The HTTP outcome of `/translate`: 200 `{"translated": ...}` or
500 `{"error": str(e)}`. -/
inductive TranslateResponse where
  | ok (translated : String)
  | err (status : Nat) (error : String)
deriving DecidableEq, Repr

/-- The `/translate` endpoint (lines 126–135 of `app.py`).  `cap text lang`
models `GoogleTranslator(source='auto', target=lang).translate(text)`, with
`Except.error e` standing for a raised exception with message `str(e)`. -/
def translate (req : TranslateRequest)
    (cap : String → String → Except String String) : TranslateResponse :=
  match cap (req.text.getD "") (req.toLang.getD "en") with
  | .ok s => .ok s
  | .error e => .err 500 e

/-- An environment in which every capability succeeds: recognition returns
`t`, GPT returns `"feedback"`, readability is 80, language is `"en"`. -/
def envOk (t : String) : AnalyzeEnv :=
  ⟨.ok t, .ok "feedback", 80, .ok "en", .ok ()⟩

/-- Claim C1: with the `duration` form field omitted, `/analyze` does not
return the 400 `Invalid or zero duration` outcome: it silently substitutes
the default duration of one second and returns a computed WPM (240 for a
four-word transcript); with `duration = "0"` it raises `ZeroDivisionError`
(an unstructured 500), again not the claimed 400. -/
theorem analyze_default_duration_substituted :
    (analyze ⟨true, none⟩ (envOk "this is a test")).1 =
      .success ⟨"this is a test", "en", 4, 240, 80, [], "feedback"⟩ ∧
    (analyze ⟨true, none⟩ (envOk "this is a test")).1 ≠
      .clientError 400 "Invalid or zero duration" ∧
    (analyze ⟨true, some "0"⟩ (envOk "this is a test")).1 =
      .serverError "ZeroDivisionError: float division by zero" := by
  with_unfolding_all decide

/-- Claim C4: when speech recognition fails (`sr.UnknownValueError`), the
early `return` on line 78 of `app.py` skips the `os.remove` on line 81, so
the request exits with 400 `Speech not recognized` while `temp.wav` still
exists — the temporary artifact is leaked on this exit path. -/
theorem analyze_recognition_failure_leaks_temp_file :
    analyze ⟨true, some "10"⟩ ⟨.unknownValue, .ok "feedback", 80, .ok "en", .ok ()⟩ =
      (.clientError 400 "Speech not recognized", ⟨true, []⟩) ∧
    (analyze ⟨true, some "10"⟩
      ⟨.unknownValue, .ok "feedback", 80, .ok "en", .ok ()⟩).2.tempExists = true := by
  with_unfolding_all decide

/-- Claim C2, counterexample: a transcript containing only `Sofia` does
yield the filler `so` in the `/analyze` response, because line 89 of
`app.py` tests substring containment, not whole-word boundaries. -/
theorem analyze_sofia_yields_so :
    (analyze ⟨true, some "10"⟩ (envOk "Sofia")).1 =
      .success ⟨"Sofia", "en", 1, 6, 80, ["so"], "feedback"⟩ := by
  with_unfolding_all decide

/-- Function `Char.ofNat` round-trips on the lowercase-letter codes. -/
theorem toNat_charOfNat_lowercase (n : Nat) (h1 : 97 ≤ n) (h2 : n ≤ 122) :
    (Char.ofNat n).toNat = n := by
  interval_cases n <;> decide

/-- Lowering a character twice is the same as lowering it once. -/
theorem pyLowerChar_idem (c : Char) : pyLowerChar (pyLowerChar c) = pyLowerChar c := by
  unfold pyLowerChar
  by_cases h : 65 ≤ c.toNat ∧ c.toNat ≤ 90
  · rw [if_pos h]
    have h1 : (Char.ofNat (c.toNat + 32)).toNat = c.toNat + 32 :=
      toNat_charOfNat_lowercase _ (by omega) (by omega)
    rw [if_neg (by rw [h1]; omega)]
  · rw [if_neg h, if_neg h]

/-- Python `str.lower` is idempotent. -/
theorem pyLower_idem (s : String) : pyLower (pyLower s) = pyLower s := by
  unfold pyLower
  simp only [List.map_map]
  exact congrArg String.mk (List.map_congr_left (fun c _ => pyLowerChar_idem c))

/-- Claim C2, amended: filler detection is case-insensitive (an
already-lowered transcript detects exactly the same fillers), but matching
is substring containment with no word boundaries: `So,` yields `so` and
`Sofia` also yields `so`. -/
theorem detectedFillers_case_insensitive_substring :
    (∀ t, detectedFillers (pyLower t) = detectedFillers t) ∧
    detectedFillers "So," = ["so"] ∧
    detectedFillers "Sofia" = ["so"] := by
  refine ⟨fun t => ?_, by decide, by decide⟩
  unfold detectedFillers
  rw [pyLower_idem]

/-- Claim C7: for every transcript, the detected-fillers list has no
duplicate entries, since it is a filter of the duplicate-free fixed
vocabulary. -/
theorem detectedFillers_nodup (t : String) : (detectedFillers t).Nodup :=
  List.Nodup.filter _ (by decide)

/-- Claim C10: for every transcript, the detected fillers appear in the
fixed `FILLERS` vocabulary order (the output is a sublist of `FILLERS`);
concretely, a transcript in which `so` precedes `um` still lists `um`
first. -/
theorem detectedFillers_in_vocab_order :
    (∀ t, List.Sublist (detectedFillers t) FILLERS) ∧
    detectedFillers "so then um" = ["um", "so"] :=
  ⟨fun _ => List.filter_sublist _, by decide⟩

/-- Claim C8: `/translate` surfaces a capability error as a 500 whose body
carries the underlying message, returns `{"translated": s}` on success, and
a missing `to` field behaves exactly as `to = "en"`. -/
theorem translate_contract :
    ∀ (req : TranslateRequest) (cap : String → String → Except String String),
      (∀ e, cap (req.text.getD "") (req.toLang.getD "en") = .error e →
        translate req cap = .err 500 e) ∧
      (∀ s, cap (req.text.getD "") (req.toLang.getD "en") = .ok s →
        translate req cap = .ok s) ∧
      (req.toLang = none → translate req cap = translate ⟨req.text, some "en"⟩ cap) := by
  intro req cap
  refine ⟨fun e h => ?_, fun s h => ?_, fun h => ?_⟩
  · unfold translate
    rw [h]
  · unfold translate
    rw [h]
  · unfold translate
    rw [h]
    rfl

/-- A translation capability that always raises. -/
def capErr : String → String → Except String String :=
  fun _ _ => .error "service down"

/-- A translation capability that succeeds, echoing text and target. -/
def capOk : String → String → Except String String :=
  fun t l => .ok (t ++ ":" ++ l)

/-- Witness for `translate_contract` at concrete requests and capabilities:
an erroring capability produces the 500 with its message, a succeeding one
produces the translated text, and omitting `to` equals passing `en`. -/
theorem translate_contract_witness :
    translate ⟨some "hello", some "fr"⟩ capErr = .err 500 "service down" ∧
    translate ⟨some "hello", none⟩ capOk = .ok "hello:en" ∧
    translate ⟨some "hello", none⟩ capOk = translate ⟨some "hello", some "en"⟩ capOk :=
  ⟨(translate_contract ⟨some "hello", some "fr"⟩ capErr).1 "service down" rfl,
   (translate_contract ⟨some "hello", none⟩ capOk).2.1 "hello:en" rfl,
   (translate_contract ⟨some "hello", none⟩ capOk).2.2 rfl⟩

/-- Claim C3, counterexample: when the GPT feedback capability raises, the
whole `/analyze` request fails with an unstructured 500 carrying the raw
exception; no degraded result with transcript and metrics is returned. -/
theorem analyze_gpt_error_fails_request :
    (analyze ⟨true, some "10"⟩
      ⟨.ok "this is a test", .error "model unavailable", 80, .ok "en", .ok ()⟩).1 =
      .serverError "model unavailable" := by
  with_unfolding_all decide

/-- Claim C3, amended: if the language-model capability errors during
`/analyze` (after successful recognition and a nonzero parsed duration),
the exception propagates uncaught: the request fails entirely with the
capability's error message, rather than succeeding with feedback fields
marked unavailable. -/
theorem analyze_gpt_error_propagates (req : AnalyzeRequest) (env : AnalyzeEnv)
    (t m : String) (d : ℚ)
    (hA : req.hasAudio = true) (hR : env.recognize = .ok t)
    (hD : parsedDuration req = some d) (hd : d ≠ 0)
    (hG : env.gptFeedback = .error m) :
    (analyze req env).1 = .serverError m := by
  have hd60 : ¬ d / 60 = 0 := div_ne_zero hd (by norm_num)
  unfold analyze
  simp only [hA, hR, hD, hG, Bool.true_eq_false, if_false, hd60, ite_false]

/-- Witness for `analyze_gpt_error_propagates` at a concrete request. -/
theorem analyze_gpt_error_propagates_witness :
    (analyze ⟨true, some "10"⟩ ⟨.ok "hi", .error "boom", 80, .ok "en", .ok ()⟩).1 =
      .serverError "boom" :=
  analyze_gpt_error_propagates ⟨true, some "10"⟩
    ⟨.ok "hi", .error "boom", 80, .ok "en", .ok ()⟩ "hi" "boom" 10
    rfl rfl (by with_unfolding_all decide) (by norm_num) rfl

/-- Claim C5: whenever `/analyze` succeeds with transcript `t` and a parsed
duration `d > 0`, the returned `word_count` is the number of
whitespace-delimited tokens of `t` and the returned `wpm` is
`round(word_count / (d / 60), 2)`. -/
theorem analyze_metrics_formula (req : AnalyzeRequest) (env : AnalyzeEnv)
    (t : String) (d : ℚ) (p : AnalyzePayload)
    (hR : env.recognize = .ok t) (hD : parsedDuration req = some d)
    (hpos : 0 < d) (hS : (analyze req env).1 = .success p) :
    p.word_count = (pySplit t).length ∧
    p.wpm = pyRound2 (((pySplit t).length : ℚ) / (d / 60)) := by
  have hd60 : ¬ d / 60 = 0 := div_ne_zero (ne_of_gt hpos) (by norm_num)
  unfold analyze at hS
  by_cases hA : req.hasAudio = false
  · rw [if_pos hA] at hS
    exact absurd hS (by simp)
  · rw [if_neg hA] at hS
    simp only [hR, hD, hd60, ite_false] at hS
    cases hGF : env.gptFeedback with
    | error m =>
      rw [hGF] at hS
      exact absurd hS (by simp)
    | ok gf =>
      rw [hGF] at hS
      cases hL : env.language with
      | error m =>
        rw [hL] at hS
        exact absurd hS (by simp)
      | ok lang =>
        rw [hL] at hS
        cases hDB : env.dbCommit with
        | error m =>
          rw [hDB] at hS
          exact absurd hS (by simp)
        | ok u =>
          rw [hDB] at hS
          simp only [Prod.fst] at hS
          injection hS with hp
          subst hp
          exact ⟨rfl, rfl⟩

/-- The payload `/analyze` returns for the ten-second `this is a test`
clip: four words, `wpm = 24`. -/
def payloadTenSeconds : AnalyzePayload :=
  ⟨"this is a test", "en", 4, 24, 80, [], "feedback"⟩

/-- Witness for `analyze_metrics_formula`: a valid 10-second clip whose
transcript is `this is a test` yields `word_count = 4` and `wpm = 24`. -/
theorem analyze_metrics_formula_witness :
    (analyze ⟨true, some "10"⟩ (envOk "this is a test")).1 =
      .success payloadTenSeconds ∧
    payloadTenSeconds.word_count = (pySplit "this is a test").length ∧
    payloadTenSeconds.wpm =
      pyRound2 (((pySplit "this is a test").length : ℚ) / (10 / 60)) ∧
    payloadTenSeconds.word_count = 4 ∧
    payloadTenSeconds.wpm = 24 := by
  have hS : (analyze ⟨true, some "10"⟩ (envOk "this is a test")).1 =
      .success payloadTenSeconds := by
    with_unfolding_all decide
  have h := analyze_metrics_formula ⟨true, some "10"⟩ (envOk "this is a test")
    "this is a test" 10 payloadTenSeconds rfl (by with_unfolding_all decide)
    (by norm_num) hS
  exact ⟨hS, h.1, h.2, rfl, rfl⟩

/-- Claim C9: when the `duration` form field is omitted and every
capability succeeds, the request succeeds — no error is raised for the
missing field — and the returned `wpm` is `round(word_count * 60, 2)`,
sixty times the word count, because the code substitutes the default
duration of one second. -/
theorem analyze_missing_duration_default (req : AnalyzeRequest) (env : AnalyzeEnv)
    (t g l : String)
    (hA : req.hasAudio = true) (hdur : req.duration = none)
    (hR : env.recognize = .ok t) (hG : env.gptFeedback = .ok g)
    (hL : env.language = .ok l) (hDB : env.dbCommit = .ok ()) :
    (analyze req env).1 =
      .success ⟨t, l, word_count t, pyRound2 ((word_count t : ℚ) * 60),
        env.readability, detectedFillers t, g⟩ := by
  have hD : parsedDuration req = some 1 := by
    unfold parsedDuration
    rw [hdur]
  have hd60 : ¬ (1 : ℚ) / 60 = 0 := by norm_num
  have harith : (word_count t : ℚ) / (1 / 60) = (word_count t : ℚ) * 60 := by
    rw [div_eq_mul_inv, one_div, inv_inv]
  unfold analyze
  simp only [hA, hR, hD, hG, hL, hDB, Bool.true_eq_false, if_false, hd60, ite_false]
  rw [harith]

/-- Witness for `analyze_missing_duration_default`: omitting `duration` on
a four-word transcript yields a successful response with `wpm = 240`. -/
theorem analyze_missing_duration_default_witness :
    (analyze ⟨true, none⟩ (envOk "this is a test")).1 =
      .success ⟨"this is a test", "en", word_count "this is a test",
        pyRound2 ((word_count "this is a test" : ℚ) * 60), 80,
        detectedFillers "this is a test", "feedback"⟩ ∧
    word_count "this is a test" = 4 ∧
    pyRound2 ((word_count "this is a test" : ℚ) * 60) = 240 := by
  refine ⟨?_, by decide, by with_unfolding_all decide⟩
  exact analyze_missing_duration_default ⟨true, none⟩ (envOk "this is a test")
    "this is a test" "feedback" "en" rfl rfl rfl rfl rfl rfl

/-- A comma-free character list splits into just itself. -/
theorem splitCommaChars_of_no_comma (x : List Char) (h : ',' ∉ x) :
    splitCommaChars x = [x] := by
  induction x with
  | nil => rfl
  | cons c cs ih =>
    have hc : ¬ c = ',' := fun hh => h (hh ▸ List.mem_cons_self c cs)
    have hcs : ',' ∉ cs := fun hh => h (List.mem_cons_of_mem c hh)
    unfold splitCommaChars
    rw [if_neg hc, ih hcs]

/-- Splitting past a comma-free head piece peels it off. -/
theorem splitCommaChars_append (x rest : List Char) (h : ',' ∉ x) :
    splitCommaChars (x ++ ',' :: rest) = x :: splitCommaChars rest := by
  induction x with
  | nil =>
    rw [List.nil_append]
    conv_lhs => unfold splitCommaChars
    rw [if_pos rfl]
  | cons c cs ih =>
    have hc : ¬ c = ',' := fun hh => h (hh ▸ List.mem_cons_self c cs)
    have hcs : ',' ∉ cs := fun hh => h (List.mem_cons_of_mem c hh)
    rw [List.cons_append]
    conv_lhs => unfold splitCommaChars
    rw [if_neg hc, ih hcs]

/-- Python `split(",")` inverts `",".join` on a nonempty list of comma-free
pieces.  (The empty list does not round-trip: it joins to the empty string,
which splits to the single empty piece.) -/
theorem splitCommaChars_join (l : List (List Char)) (hne : l ≠ [])
    (hc : ∀ x ∈ l, ',' ∉ x) :
    splitCommaChars (joinCommaChars l) = l := by
  induction l with
  | nil => exact absurd rfl hne
  | cons x xs ih =>
    cases xs with
    | nil =>
      unfold joinCommaChars
      exact splitCommaChars_of_no_comma x (hc x (List.mem_cons_self x []))
    | cons y ys =>
      unfold joinCommaChars
      rw [splitCommaChars_append x _ (hc x (List.mem_cons_self x (y :: ys)))]
      rw [ih (List.cons_ne_nil y ys) (fun z hz => hc z (List.mem_cons_of_mem x hz))]

/-- String-level round-trip: `s.split(",")` inverts `",".join(l)` for a
nonempty list of comma-free strings. -/
theorem pySplitComma_pyJoinComma (l : List String) (hne : l ≠ [])
    (hc : ∀ s ∈ l, ',' ∉ s.data) :
    pySplitComma (pyJoinComma l) = l := by
  unfold pySplitComma pyJoinComma
  rw [splitCommaChars_join (l.map String.data)
    (by simpa using hne)
    (by
      intro x hx
      obtain ⟨s, hs, rfl⟩ := List.mem_map.1 hx
      exact hc s hs)]
  rw [List.map_map]
  exact List.map_congr_left (fun s _ => rfl) |>.trans (List.map_id l)

/-- Every word of the filler vocabulary is comma-free. -/
theorem fillers_comma_free : ∀ w ∈ FILLERS, ',' ∉ w.data := by decide

/-- Claim C6, counterexample: a successful `/analyze` run whose transcript
(`hello`) contains no fillers returns `fillers = []`, persists the empty
string in the `fillers` column, and splitting that column on commas yields
`[""]`, not the original empty array — the round-trip fails when the
fillers array is empty. -/
theorem analyze_empty_fillers_no_roundtrip :
    analyze ⟨true, some "10"⟩ (envOk "hello") =
      (.success ⟨"hello", "en", 1, 6, 80, [], "feedback"⟩,
       ⟨false, [⟨"hello", "feedback", 80, 1, 6, "", "en"⟩]⟩) ∧
    pySplitComma "" = [""] ∧
    ([""] : List String) ≠ ([] : List String) := by
  with_unfolding_all decide

/-- Claim C6, amended: for every successful `/analyze` invocation whose
fillers array is nonempty, splitting the persisted row's comma-joined
`fillers` column on commas exactly reconstructs the response's fillers
array.  (When the array is empty the column holds the empty string, which
splits to `[""]`.) -/
theorem analyze_persisted_fillers_roundtrip (req : AnalyzeRequest)
    (env : AnalyzeEnv) (p : AnalyzePayload) (st : AnalyzeState)
    (hEq : analyze req env = (.success p, st)) (hne : p.fillers ≠ []) :
    st.rows.map (fun r => pySplitComma r.fillers) = [p.fillers] := by
  unfold analyze at hEq
  by_cases hA : req.hasAudio = false
  · rw [if_pos hA] at hEq
    exact absurd (congrArg Prod.fst hEq) (by simp)
  · rw [if_neg hA] at hEq
    cases hR : env.recognize with
    | unknownValue =>
      simp only [hR] at hEq
      exact absurd (congrArg Prod.fst hEq) (by simp)
    | requestError m =>
      simp only [hR] at hEq
      exact absurd (congrArg Prod.fst hEq) (by simp)
    | ok t =>
      simp only [hR] at hEq
      cases hD : parsedDuration req with
      | none =>
        simp only [hD] at hEq
        exact absurd (congrArg Prod.fst hEq) (by simp)
      | some d =>
        simp only [hD] at hEq
        by_cases hd60 : d / 60 = 0
        · rw [if_pos hd60] at hEq
          exact absurd (congrArg Prod.fst hEq) (by simp)
        · rw [if_neg hd60] at hEq
          cases hGF : env.gptFeedback with
          | error m =>
            simp only [hGF] at hEq
            exact absurd (congrArg Prod.fst hEq) (by simp)
          | ok gf =>
            simp only [hGF] at hEq
            cases hL : env.language with
            | error m =>
              simp only [hL] at hEq
              exact absurd (congrArg Prod.fst hEq) (by simp)
            | ok lang =>
              simp only [hL] at hEq
              cases hDB : env.dbCommit with
              | error m =>
                simp only [hDB] at hEq
                exact absurd (congrArg Prod.fst hEq) (by simp)
              | ok u =>
                simp only [hDB] at hEq
                have hp := congrArg Prod.fst hEq
                have hst := congrArg Prod.snd hEq
                simp only [Prod.fst] at hp
                simp only [Prod.snd] at hst
                injection hp with hp
                subst hp
                subst hst
                simp only [List.map_cons, List.map_nil]
                rw [pySplitComma_pyJoinComma (detectedFillers t) hne
                  (fun s hs => fillers_comma_free s (List.mem_of_mem_filter hs))]

/-- Witness for `analyze_persisted_fillers_roundtrip`: a transcript with
fillers `um` and `so` persists `um,so`, which splits back to the response's
array. -/
theorem analyze_persisted_fillers_roundtrip_witness :
    (analyze ⟨true, some "10"⟩ (envOk "um so nice")).2.rows.map
      (fun r => pySplitComma r.fillers) = [["um", "so"]] ∧
    (analyze ⟨true, some "10"⟩ (envOk "um so nice")).1 =
      .success ⟨"um so nice", "en", 3, 18, 80, ["um", "so"], "feedback"⟩ := by
  have hEq : analyze ⟨true, some "10"⟩ (envOk "um so nice") =
      (.success ⟨"um so nice", "en", 3, 18, 80, ["um", "so"], "feedback"⟩,
       ⟨false, [⟨"um so nice", "feedback", 80, 3, 18, "um,so", "en"⟩]⟩) := by
    with_unfolding_all decide
  have h := analyze_persisted_fillers_roundtrip ⟨true, some "10"⟩
    (envOk "um so nice") ⟨"um so nice", "en", 3, 18, 80, ["um", "so"], "feedback"⟩
    ⟨false, [⟨"um so nice", "feedback", 80, 3, 18, "um,so", "en"⟩]⟩
    hEq (by decide)
  exact ⟨by rw [hEq]; exact h, by rw [hEq]⟩

end SpeechApp
